import Mathlib

/-!
Verification of the christmas-lights control program (src/src/main.rs) against
its natural-language specification.

The program is shallowly embedded below:
* machine integers become `Nat`/`Int`;
* the `f64` hue cursor and the `f32` RGB channels become `ℚ` (on the values
  the program actually manipulates — integer-valued degrees in `[0, 360]` and
  small fractions thereof — the floating-point operations `+ 1.0`, `% 360.0`,
  `* 255.0` and the `as u8` cast are exact, so the rational model is faithful);
* the BLE transport becomes an explicit function `List Nat → Except String Unit`
  whose result the command channel discards exactly where the Rust code
  applies `.ok()`;
* the scheduler closure and the control loop become pure step functions on an
  explicit state, with the byte frames and log-transition observations they
  emit returned as lists.
-/

/-! ## Constants (src/src/main.rs lines 21–24) -/

/-- `MAGIC_NUMBER: u8 = 0x3C` — the leading byte of every command frame. -/
def MAGIC_NUMBER : Nat := 0x3C

/-- `CYCLE_TIME_MILLISECOND: u64 = 10` — the animation cadence. -/
def CYCLE_TIME_MILLISECOND : Nat := 10

/-! ## Astronomical gate (src/src/main.rs lines 161–185)

`get_sunrise_sunset` delegates to the external `sunrise` crate; the comparison
logic under verification lives in `is_after_sunrise` / `is_before_sunset`, so
we parameterise by the `sunrise`/`sunset` instants (i64 Unix timestamps) and
the current instant `now`. -/

/-- `is_after_sunrise`: the Rust code compares `sunrise < current_date.timestamp()`
(strict inequality). -/
def is_after_sunrise (sunrise now : Int) : Bool := sunrise < now

/-- `is_before_sunset`: the Rust code compares `current_date.timestamp() < sunset`
(strict inequality). -/
def is_before_sunset (sunset now : Int) : Bool := now < sunset

/-- The daytime predicate as evaluated by the scheduler closure (line 54):
`is_after_sunrise() && is_before_sunset()`. -/
def isDaytime (sunrise sunset now : Int) : Bool :=
  is_after_sunrise sunrise now && is_before_sunset sunset now

/-- The daytime predicate as the specification words it:
`isDaytime(now) = sunrise ≤ now < sunset` with an inclusive lower bound.
Stated for comparison with `isDaytime`, which embeds the source. -/
def isDaytimeSpec (sunrise sunset now : Int) : Bool :=
  decide (sunrise ≤ now) && decide (now < sunset)

/-! ## Command frames (src/src/main.rs lines 145–159) -/

/-- The color command frame built by `set_color`:
`vec![MAGIC_NUMBER, 0x02, r, g, b]`. -/
def color_cmd (r g b : Nat) : List Nat := [MAGIC_NUMBER, 0x02, r, g, b]

/-- The power-off command frame built by `turn_off_lights`:
`vec![MAGIC_NUMBER, 0x01]`. -/
def shut_off_cmd : List Nat := [MAGIC_NUMBER, 0x01]

/-- Rust's `Result::ok`, which `set_color`/`turn_off_lights` apply to the
write result: converts to an `Option`, discarding the error. -/
def resultOk {ε α : Type} (r : Except ε α) : Option α := r.toOption

/-- `set_color`: builds the color frame, issues the write, and discards the
write result via `.ok()`; returns unit to the caller unconditionally. -/
def set_color (write : List Nat → Except String Unit) (r g b : Nat) : Unit :=
  let _ := resultOk (write (color_cmd r g b))
  ()

/-- `turn_off_lights`: builds the power-off frame, issues the write, and
discards the write result via `.ok()`; returns unit unconditionally. -/
def turn_off_lights (write : List Nat → Except String Unit) : Unit :=
  let _ := resultOk (write shut_off_cmd)
  ()

/-! ## Color animator (src/src/main.rs lines 72–92, 187–193)

The hue cursor is an `f64`; on the values the loop manipulates (integer
degrees reachable from the initial `1.0` by `+ 1.0` and `% 360.0`, all far
below 2^53) every floating-point operation is exact, so `ℚ` is a faithful
model. -/

/-- Truncation toward zero of a rational, as Rust's float `trunc`. -/
def truncQ (x : ℚ) : Int := if 0 ≤ x then ⌊x⌋ else ⌈x⌉

/-- Rust's `%` on floats (`fmod`): `x - trunc(x / y) * y`, exact on exact
operands. -/
def rustRem (x y : ℚ) : ℚ := x - y * (truncQ (x / y) : ℚ)

/-- One cursor advance of the control loop (line 77):
`hue_deg = (hue_deg + 1.0) % 360.0`. -/
def tickHue (h : ℚ) : ℚ := rustRem (h + 1) 360

/-- The fresh animator's hue cursor (line 72): `let mut hue_deg = 1.0`. -/
def initHue : ℚ := 1

/-- The hue cursor after `k` animator ticks starting from `h`. -/
def hueIter (h : ℚ) : Nat → ℚ
  | 0 => h
  | k + 1 => hueIter (tickHue h) k

/-- Rust's `as u8` cast from a float: truncate toward zero, saturating into
`[0, 255]`. -/
def asU8 (x : ℚ) : Nat := (min 255 (truncQ x)).toNat

/-- `rgb_f32_to_u8_capped`: multiplies each `[0,1]` channel by 255 and casts
`as u8` (lines 187–193). -/
def rgb_f32_to_u8_capped (c : ℚ × ℚ × ℚ) : Nat × Nat × Nat :=
  (asU8 (c.1 * 255), asU8 (c.2.1 * 255), asU8 (c.2.2 * 255))

/-- Modelled from the spec: the hue→RGB conversion used at lines 78–79
(`Hsv::new(Deg(hue_deg), 1.0, 1.0)` then `Rgb::from_color`) lives in the
external `prisma` crate and is not in src/; the spec describes it as "a
standard hue→RGB mapping" at full saturation and value. With sector
`k = ⌊h/60⌋` and fraction `f = h/60 - k`, the standard mapping at s = v = 1
gives `(1,f,0), (1-f,1,0), (0,1,f), (0,1-f,1), (f,0,1), (1,0,1-f)` for
sectors 0–5. -/
def hueToRgb (h : ℚ) : ℚ × ℚ × ℚ :=
  if h < 60 then (1, h / 60, 0)
  else if h < 120 then (1 - (h - 60) / 60, 1, 0)
  else if h < 180 then (0, 1, (h - 120) / 60)
  else if h < 240 then (0, 1 - (h - 180) / 60, 1)
  else if h < 300 then ((h - 240) / 60, 0, 1)
  else (1, 0, 1 - (h - 300) / 60)

/-- The 8-bit RGB triple the loop derives from a hue value (lines 78–80). -/
def colorOfHue (h : ℚ) : Nat × Nat × Nat := rgb_f32_to_u8_capped (hueToRgb h)

/-- The color frame the loop sends for a hue value (lines 78–86). -/
def frameOfHue (h : ℚ) : List Nat :=
  color_cmd (colorOfHue h).1 (colorOfHue h).2.1 (colorOfHue h).2.2

/-! ### Hue arithmetic lemmas -/

lemma truncQ_of_nonneg {x : ℚ} (h : 0 ≤ x) : truncQ x = ⌊x⌋ := if_pos h

lemma tickHue_of_lt {h : ℚ} (h0 : 0 ≤ h) (h1 : h + 1 < 360) :
    tickHue h = h + 1 := by
  have hnn : (0 : ℚ) ≤ (h + 1) / 360 := by positivity
  have hlt : (h + 1) / 360 < 1 := by
    rw [div_lt_one (by norm_num : (0:ℚ) < 360)]; linarith
  have hfl : truncQ ((h + 1) / 360) = 0 := by
    rw [truncQ_of_nonneg hnn, Int.floor_eq_zero_iff]
    exact ⟨hnn, hlt⟩
  simp [tickHue, rustRem, hfl]

lemma tickHue_of_ge {h : ℚ} (h1 : 360 ≤ h + 1) (h2 : h + 1 < 720) :
    tickHue h = h + 1 - 360 := by
  have hone : (1 : ℚ) ≤ (h + 1) / 360 := by
    rw [le_div_iff₀ (by norm_num : (0:ℚ) < 360)]; linarith
  have hlt : (h + 1) / 360 < 2 := by
    rw [div_lt_iff₀ (by norm_num : (0:ℚ) < 360)]; linarith
  have hfl : truncQ ((h + 1) / 360) = 1 := by
    rw [truncQ_of_nonneg (by linarith : (0:ℚ) ≤ (h + 1) / 360), Int.floor_eq_iff]
    constructor
    · exact_mod_cast hone
    · push_cast
      linarith
  rw [tickHue, rustRem, hfl]
  push_cast
  ring

lemma tickHue_natCast (n : Nat) (hn : n < 360) :
    tickHue (n : ℚ) = (((n + 1) % 360 : Nat) : ℚ) := by
  rcases Nat.lt_or_ge n 359 with h | h
  · have h1 : (n : ℚ) + 1 < 360 := by
      exact_mod_cast (by omega : (n : Int) + 1 < 360)
    rw [tickHue_of_lt (by positivity) h1, Nat.mod_eq_of_lt (by omega)]
    push_cast
    ring
  · have hn359 : n = 359 := by omega
    subst hn359
    rw [tickHue_of_ge (by norm_num) (by norm_num)]
    norm_num

lemma hueIter_natCast (k : Nat) :
    ∀ n : Nat, n < 360 → hueIter (n : ℚ) k = (((n + k) % 360 : Nat) : ℚ) := by
  induction k with
  | zero =>
      intro n hn
      simp [hueIter, Nat.mod_eq_of_lt hn]
  | succ k ih =>
      intro n hn
      have hstep : hueIter (n : ℚ) (k + 1) = hueIter (tickHue (n : ℚ)) k := rfl
      rw [hstep, tickHue_natCast n hn, ih _ (Nat.mod_lt _ (by omega))]
      congr 1
      omega

/-! ## Claim C5 — hue cursor cycling -/

/-- Claim C5: a tick adds exactly 1.0 degree to the cursor (wrapping at 360
back to 0, so `tickHue 359 = 0` and more generally the sum is reduced by 360
once it reaches 360); over 360 consecutive ticks from an integer-valued
cursor `n < 360` every integer degree in `[0,360)` is visited exactly once
(no duplicates, no gaps), and 360 ticks return the cursor to its start. -/
theorem C5_hue_cycle (h : ℚ) (n : Nat) (h0 : 0 ≤ h) (h1 : h < 360)
    (hn : n < 360) :
    (h + 1 < 360 → tickHue h = h + 1) ∧
    (360 ≤ h + 1 → tickHue h = h + 1 - 360) ∧
    tickHue (359 : ℚ) = 0 ∧
    hueIter ((n : Nat) : ℚ) 360 = ((n : Nat) : ℚ) ∧
    (∀ i j, i < 360 → j < 360 →
      hueIter ((n : Nat) : ℚ) (i + 1) = hueIter ((n : Nat) : ℚ) (j + 1) →
      i = j) ∧
    (∀ m : Nat, m < 360 → ∃ k, k < 360 ∧ hueIter ((n : Nat) : ℚ) (k + 1) = (m : ℚ)) := by
  refine ⟨fun hlt => tickHue_of_lt h0 hlt,
    fun hge => tickHue_of_ge hge (by linarith), ?_, ?_, ?_, ?_⟩
  · rw [tickHue_of_ge (by norm_num) (by norm_num)]
    norm_num
  · rw [hueIter_natCast 360 n hn]
    have hmod : (n + 360) % 360 = n := by omega
    rw [hmod]
  · intro i j hi hj heq
    rw [hueIter_natCast (i + 1) n hn, hueIter_natCast (j + 1) n hn] at heq
    have heqN : (n + (i + 1)) % 360 = (n + (j + 1)) % 360 := Nat.cast_inj.mp heq
    omega
  · intro m hm
    refine ⟨(m + 719 - n) % 360, Nat.mod_lt _ (by omega), ?_⟩
    rw [hueIter_natCast ((m + 719 - n) % 360 + 1) n hn]
    have : (n + ((m + 719 - n) % 360 + 1)) % 360 = m := by omega
    rw [this]

/-- Witness for C5 at `h = 2`, `n = 7`. -/
theorem C5_hue_cycle_witness :
    ((0 : ℚ) ≤ 2 ∧ (2 : ℚ) < 360 ∧ 7 < 360) ∧
    (((2 : ℚ) + 1 < 360 → tickHue 2 = 2 + 1) ∧
    (360 ≤ (2 : ℚ) + 1 → tickHue 2 = 2 + 1 - 360) ∧
    tickHue (359 : ℚ) = 0 ∧
    hueIter (((7 : Nat) : Nat) : ℚ) 360 = (((7 : Nat) : Nat) : ℚ) ∧
    (∀ i j, i < 360 → j < 360 →
      hueIter (((7 : Nat) : Nat) : ℚ) (i + 1) = hueIter (((7 : Nat) : Nat) : ℚ) (j + 1) →
      i = j) ∧
    (∀ m : Nat, m < 360 → ∃ k, k < 360 ∧ hueIter (((7 : Nat) : Nat) : ℚ) (k + 1) = (m : ℚ))) :=
  ⟨⟨by norm_num, by norm_num, by norm_num⟩,
    C5_hue_cycle 2 7 (by norm_num) (by norm_num) (by norm_num)⟩

/-! ## Claim C7 — channel truncation -/

/-- Claim C7: for every channel value in `[0,1]`, the 8-bit conversion
multiplies by 255 and truncates toward zero (the result is `⌊255·x⌋`, which
lies in `[0,255]` and satisfies the truncation bracketing
`result ≤ 255·x < result + 1` — a rounding conversion would violate the left
inequality whenever the fractional part is at least one half); and
`rgb_f32_to_u8_capped` applies exactly this conversion to each of the three
channels. -/
theorem C7_truncation (x : ℚ) (h0 : 0 ≤ x) (h1 : x ≤ 1) :
    asU8 (x * 255) = (⌊x * 255⌋).toNat ∧
    asU8 (x * 255) ≤ 255 ∧
    ((asU8 (x * 255) : ℚ) ≤ x * 255 ∧ x * 255 < (asU8 (x * 255) : ℚ) + 1) ∧
    (∀ r g b : ℚ, rgb_f32_to_u8_capped (r, g, b) =
      (asU8 (r * 255), asU8 (g * 255), asU8 (b * 255))) := by
  have hnn : (0 : ℚ) ≤ x * 255 := by positivity
  have hfl : truncQ (x * 255) = ⌊x * 255⌋ := truncQ_of_nonneg hnn
  have hub : ⌊x * 255⌋ ≤ 255 := by
    have hx : x * 255 ≤ 255 := by nlinarith
    have h255 : ⌊(255 : ℚ)⌋ = 255 := by norm_num
    calc ⌊x * 255⌋ ≤ ⌊(255 : ℚ)⌋ := Int.floor_mono hx
      _ = 255 := h255
  have hA : asU8 (x * 255) = (⌊x * 255⌋).toNat := by
    rw [asU8, hfl, min_eq_right hub]
  have hfnn : 0 ≤ ⌊x * 255⌋ := Int.floor_nonneg.mpr hnn
  have hcast : ((asU8 (x * 255) : ℚ)) = ((⌊x * 255⌋ : Int) : ℚ) := by
    rw [hA]
    exact_mod_cast congrArg (fun z : Int => (z : ℚ)) (Int.toNat_of_nonneg hfnn)
  refine ⟨hA, by rw [hA]; omega, ⟨?_, ?_⟩, fun r g b => rfl⟩
  · rw [hcast]
    exact Int.floor_le _
  · rw [hcast]
    exact Int.lt_floor_add_one _

/-- Witness for C7 at `x = 1/2` (255/2 = 127.5 truncates to 127; rounding
would give 128). -/
theorem C7_truncation_witness :
    ((0 : ℚ) ≤ 1/2 ∧ (1/2 : ℚ) ≤ 1) ∧
    (asU8 ((1/2 : ℚ) * 255) = (⌊(1/2 : ℚ) * 255⌋).toNat ∧
    asU8 ((1/2 : ℚ) * 255) ≤ 255 ∧
    ((asU8 ((1/2 : ℚ) * 255) : ℚ) ≤ (1/2 : ℚ) * 255 ∧
      (1/2 : ℚ) * 255 < (asU8 ((1/2 : ℚ) * 255) : ℚ) + 1) ∧
    (∀ r g b : ℚ, rgb_f32_to_u8_capped (r, g, b) =
      (asU8 (r * 255), asU8 (g * 255), asU8 (b * 255)))) :=
  ⟨⟨by norm_num, by norm_num⟩, C7_truncation (1/2) (by norm_num) (by norm_num)⟩

/-! ## Claim C1 — daytime boundary convention -/

/-- Claim C1, counterexample: at `now = sunrise` (take sunrise 0, sunset 100,
now 0) the specification's condition `sunrise ≤ now < sunset` holds, yet the
code's daytime predicate returns `false` — the lower bound in the code is
strict, not inclusive as the claim states. -/
theorem C1_counterexample :
    isDaytimeSpec 0 100 0 = true ∧ isDaytime 0 100 0 = false := by
  decide

/-- Claim C1 (amended): the daytime predicate returns true exactly when
`sunrise < now < sunset` — the lower bound is exclusive (at exact equality
with sunrise, daytime has not yet begun) and the upper bound is exclusive
(at exact equality with sunset, daytime has ended). -/
theorem C1_daytime_strict_bounds (sunrise sunset now : Int) :
    isDaytime sunrise sunset now = true ↔ sunrise < now ∧ now < sunset := by
  simp [isDaytime, is_after_sunrise, is_before_sunset]

/-! ## Claim C2 — command frame wire format -/

/-- Claim C2: for every r, g, b in 0–255 the color command frame is exactly
the 5 bytes `[0x3C, 0x02, r, g, b]`, the power-off frame is exactly the
2 bytes `[0x3C, 0x01]`, and in particular the color frame for (10,20,30) is
`[0x3C, 0x02, 10, 20, 30]`. -/
theorem C2_frame_format (r g b : Nat)
    (_hr : r ≤ 255) (_hg : g ≤ 255) (_hb : b ≤ 255) :
    color_cmd r g b = [0x3C, 0x02, r, g, b] ∧
    (color_cmd r g b).length = 5 ∧
    shut_off_cmd = [0x3C, 0x01] ∧
    shut_off_cmd.length = 2 ∧
    color_cmd 10 20 30 = [0x3C, 0x02, 10, 20, 30] := by
  refine ⟨rfl, rfl, rfl, rfl, rfl⟩

/-- Witness for C2 at (r,g,b) = (10,20,30). -/
theorem C2_frame_format_witness :
    color_cmd 10 20 30 = [0x3C, 0x02, 10, 20, 30] :=
  (C2_frame_format 10 20 30 (by decide) (by decide) (by decide)).2.2.2.2

/-! ## Day/Night Coordinator and Control Loop (src/src/main.rs lines 47–93) -/

/-- A structured log observation emitted at a state transition (lines 57, 67). -/
inductive Obs where
  | turnedOff : Obs
  | turnedOn : Obs
  deriving DecidableEq, Repr

/-- One firing of the scheduler closure (lines 49–70), given the evaluated
daytime gate and the current `is_off` flag: returns the new flag, the frames
written, and the transition observations logged. -/
def coordStep (daytime is_off : Bool) : Bool × List (List Nat) × List Obs :=
  if daytime then
    if !is_off then (true, [shut_off_cmd], [Obs.turnedOff])
    else (is_off, [], [])
  else
    if is_off then (false, [], [Obs.turnedOn])
    else (is_off, [], [])

/-- A run of scheduler firings over a list of gate evaluations, threading the
flag and concatenating the emitted frames and observations. -/
def coordRun (is_off : Bool) : List Bool → Bool × List (List Nat) × List Obs
  | [] => (is_off, [], [])
  | d :: ds =>
    let r1 := coordStep d is_off
    let r2 := coordRun r1.1 ds
    (r2.1, r1.2.1 ++ r2.2.1, r1.2.2 ++ r2.2.2)

/-- The number of Lit → Suppressed edges along a run of gate evaluations. -/
def offEdges (is_off : Bool) : List Bool → Nat
  | [] => 0
  | d :: ds => (if d && !is_off then 1 else 0) + offEdges d ds

lemma coordStep_state (d s : Bool) : (coordStep d s).1 = d := by
  cases d <;> cases s <;> rfl

lemma coordRun_length (ds : List Bool) :
    ∀ s, (coordRun s ds).2.1.length = offEdges s ds := by
  induction ds with
  | nil =>
      intro s
      rfl
  | cons d ds ih =>
      intro s
      simp only [coordRun, offEdges, List.length_append, coordStep_state, ih]
      cases d <;> cases s <;> simp [coordStep]

lemma coordRun_frames (ds : List Bool) :
    ∀ s, ∀ f ∈ (coordRun s ds).2.1, f = shut_off_cmd := by
  induction ds with
  | nil =>
      intro s f hf
      simp [coordRun] at hf
  | cons d ds ih =>
      intro s f hf
      simp only [coordRun, List.mem_append] at hf
      rcases hf with hf | hf
      · cases d <;> cases s <;> simp_all [coordStep]
      · exact ih _ f hf

/-- The control-loop state: the shared `is_off` flag and the hue cursor. -/
structure SysState where
  is_off : Bool
  hue : ℚ
  deriving DecidableEq, Repr

/-- The animation half of one loop iteration (lines 76–91): if the flag reads
`Lit` (`is_off = false`) the cursor advances first and then one color frame
derived from the new cursor value is sent; otherwise nothing is sent and the
cursor is untouched (the loop only sleeps). -/
def animStep (s : SysState) : SysState × List (List Nat) :=
  if !s.is_off then
    ({ s with hue := tickHue s.hue }, [frameOfHue (tickHue s.hue)])
  else (s, [])

/-- One full control-loop iteration (lines 73–92): `run_pending` first runs
the scheduler closure when it is due (`gate = some d`, with `d` the daytime
evaluation) or does nothing (`gate = none`), then the loop reads the flag and
animates or idles. -/
def loopIter (gate : Option Bool) (s : SysState) :
    SysState × List (List Nat) × List Obs :=
  match gate with
  | none =>
    let a := animStep s
    (a.1, a.2, [])
  | some d =>
    let c := coordStep d s.is_off
    let a := animStep { is_off := c.1, hue := s.hue }
    (a.1, c.2.1 ++ a.2, c.2.2)

/-- A run of control-loop iterations. -/
def loopRun (s : SysState) :
    List (Option Bool) → SysState × List (List Nat) × List Obs
  | [] => (s, [], [])
  | g :: gs =>
    let r1 := loopIter g s
    let r2 := loopRun r1.1 gs
    (r2.1, r1.2.1 ++ r2.2.1, r1.2.2 ++ r2.2.2)

/-! ## Claim C3 — edge-triggered coordinator -/

/-- Claim C3: over any sequence of timer evaluations the coordinator emits
exactly one frame per Lit → Suppressed edge (so a power-off is sent only on
the single evaluation where the state transitions Lit → Suppressed), every
frame it ever emits is the power-off frame, and a re-evaluation while the
state already matches the gate (daytime while Suppressed, nighttime while
Lit) changes nothing: no command, no observation, no state change. -/
theorem C3_edge_triggered (s : Bool) (ds : List Bool) :
    (coordRun s ds).2.1.length = offEdges s ds ∧
    (∀ f ∈ (coordRun s ds).2.1, f = shut_off_cmd) ∧
    coordStep true true = (true, [], []) ∧
    coordStep false false = (false, [], []) :=
  ⟨coordRun_length ds s, coordRun_frames ds s, rfl, rfl⟩

/-! ## Claim C4 — Suppressed → Lit sends nothing -/

/-- Claim C4: the Suppressed → Lit transition flips the flag and logs the
transition-to-on observation but sends zero frames; color frames resume only
through subsequent animator steps of the control loop, which send one color
frame per tick while the flag reads `Lit`. -/
theorem C4_suppressed_to_lit :
    coordStep false true = (false, [], [Obs.turnedOn]) ∧
    (∀ h : ℚ, animStep { is_off := false, hue := h } =
      ({ is_off := false, hue := tickHue h }, [frameOfHue (tickHue h)])) :=
  ⟨rfl, fun _ => rfl⟩

/-! ## Claim C8 — write failures swallowed -/

/-- Claim C8: `set_color` and `turn_off_lights` return normally for every
transport outcome — also when every write fails — because the write result is
discarded by `Result::ok` at the command-channel boundary, and the loop's
behaviour is identical for failing and succeeding transports. -/
theorem C8_write_failures_swallowed (w : List Nat → Except String Unit)
    (e : String) (r g b : Nat) :
    set_color w r g b = () ∧
    turn_off_lights w = () ∧
    set_color (fun _ => Except.error e) r g b =
      set_color (fun _ => Except.ok ()) r g b ∧
    resultOk (Except.error e : Except String Unit) = none :=
  ⟨rfl, rfl, rfl, rfl⟩

/-! ## Claim C6 — fresh start and the first three ticks -/

/-- Claim C6: a fresh animator starts with the cursor at 1.0 (not 0); from
state `Lit` with the cursor at 1.0, three control-loop iterations leave the
cursor at 4.0 and send exactly three color frames, derived from hues 2.0,
3.0 and 4.0 respectively (each tick increments first, then sends). The
concrete frames are spelled out as byte lists. -/
theorem C6_fresh_animator_three_ticks :
    initHue = 1 ∧
    loopRun { is_off := false, hue := initHue } [none, none, none] =
      ({ is_off := false, hue := 4 },
        [frameOfHue 2, frameOfHue 3, frameOfHue 4], []) ∧
    frameOfHue 2 = [0x3C, 0x02, 255, 8, 0] ∧
    frameOfHue 3 = [0x3C, 0x02, 255, 12, 0] ∧
    frameOfHue 4 = [0x3C, 0x02, 255, 17, 0] := by
  have t1 : tickHue 1 = 2 := by norm_num [tickHue, rustRem, truncQ]
  have t2 : tickHue 2 = 3 := by norm_num [tickHue, rustRem, truncQ]
  have t3 : tickHue 3 = 4 := by norm_num [tickHue, rustRem, truncQ]
  refine ⟨rfl, ?_, ?_, ?_, ?_⟩
  · simp [loopRun, loopIter, animStep, initHue, t1, t2, t3]
  · norm_num [frameOfHue, colorOfHue, hueToRgb, rgb_f32_to_u8_capped, asU8,
      truncQ, color_cmd, MAGIC_NUMBER]
    decide
  · norm_num [frameOfHue, colorOfHue, hueToRgb, rgb_f32_to_u8_capped, asU8,
      truncQ, color_cmd, MAGIC_NUMBER]
    decide
  · norm_num [frameOfHue, colorOfHue, hueToRgb, rgb_f32_to_u8_capped, asU8,
      truncQ, color_cmd, MAGIC_NUMBER]
    decide

/-! ## Claim C10 — suppression freezes the cursor -/

/-- Claim C10: in every control-loop iteration in which the shared flag reads
Suppressed (the flag is `true` once the scheduler's due check has been
applied, which is when the loop reads it), the hue cursor is left unchanged
and no color frame is sent (any frame emitted that iteration is the
coordinator's power-off frame); and a later `Lit` iteration starting from the
held cursor value resumes the animation from exactly that value: it advances
it once and sends the frame of the advanced value, rather than restarting. -/
theorem C10_suppression_freezes_cursor (gate : Option Bool) (s : SysState)
    (hoff : (loopIter gate s).1.is_off = true) :
    (loopIter gate s).1.hue = s.hue ∧
    (∀ f ∈ (loopIter gate s).2.1, f = shut_off_cmd) ∧
    loopIter none { is_off := false, hue := s.hue } =
      ({ is_off := false, hue := tickHue s.hue },
        [frameOfHue (tickHue s.hue)], []) := by
  obtain ⟨off, hue⟩ := s
  rcases gate with _ | d
  · cases off
    · simp [loopIter, animStep] at hoff
    · refine ⟨rfl, ?_, rfl⟩
      intro f hf
      simp [loopIter, animStep] at hf
  · cases d
    · cases off <;> simp_all [loopIter, animStep, coordStep]
    · cases off <;>
        · refine ⟨rfl, ?_, rfl⟩
          intro f hf
          simp [loopIter, animStep, coordStep] at hf
          try exact hf

/-- Witness for C10: the iteration whose due check crosses into daytime while
`Lit` at cursor 5 ends Suppressed. -/
theorem C10_suppression_freezes_cursor_witness :
    ((loopIter (some true) { is_off := false, hue := 5 }).1.is_off = true) ∧
    ((loopIter (some true) { is_off := false, hue := 5 }).1.hue =
      ({ is_off := false, hue := 5 } : SysState).hue ∧
    (∀ f ∈ (loopIter (some true) { is_off := false, hue := 5 }).2.1,
      f = shut_off_cmd) ∧
    loopIter none { is_off := false, hue := ({ is_off := false, hue := 5 } : SysState).hue } =
      ({ is_off := false, hue := tickHue ({ is_off := false, hue := 5 } : SysState).hue },
        [frameOfHue (tickHue ({ is_off := false, hue := 5 } : SysState).hue)], [])) :=
  ⟨rfl, C10_suppression_freezes_cursor (some true) { is_off := false, hue := 5 } rfl⟩

/-! ## Device discovery (src/src/main.rs lines 95–143) -/

/-- Substring containment on character lists, as Rust's `str::contains` with
a string pattern: some contiguous slice of the haystack equals the needle. -/
def containsSeq (needle : List Char) : List Char → Bool
  | [] => needle.isEmpty
  | a :: as => needle.isPrefixOf (a :: as) || containsSeq needle as

/-- A visible BLE peripheral, reduced to the property discovery inspects: its
advertised local name (`properties().local_name`, an `Option<String>`). -/
structure BlePeripheral where
  local_name : Option String
  deriving DecidableEq, Repr

/-- The discovery filter applied by `print_devices` (lines 131–137):
`local_name.iter().any(|name| name.contains("Light"))` — a present advertised
name containing the substring "Light". -/
def nameMatches (p : BlePeripheral) : Bool :=
  match p.local_name with
  | some name => containsSeq "Light".toList name.toList
  | none => false

/-- `print_devices` (lines 129–143): walks the visible peripherals in order
and returns the first one whose advertised name matches, `none` otherwise. -/
def print_devices (ps : List BlePeripheral) : Option BlePeripheral :=
  match ps with
  | [] => none
  | p :: rest => if nameMatches p then some p else print_devices rest

/-- The fixed scan window (line 108): `time::sleep(Duration::from_secs(2))`
between `start_scan` and inspecting the peripheral list. -/
def SCAN_WINDOW_SECONDS : Nat := 2

/-- `get_light` (lines 95–116): after the scan window, selects
`print_devices(..).expect("No Actuel lights found")` — when no peripheral
matches, the `expect` panics: a fatal startup error raised before the control
loop is entered, with no retry path in the program. -/
def get_light (ps : List BlePeripheral) : Except String BlePeripheral :=
  match print_devices ps with
  | some p => Except.ok p
  | none => Except.error "No Actuel lights found"

lemma print_devices_none (ps : List BlePeripheral)
    (h : ∀ p ∈ ps, nameMatches p = false) : print_devices ps = none := by
  induction ps with
  | nil => rfl
  | cons p rest ih =>
      have hp : nameMatches p = false := h p (by simp)
      simp only [print_devices, hp, Bool.false_eq_true, if_false]
      exact ih fun q hq => h q (by simp [hq])

lemma print_devices_first (ps : List BlePeripheral) :
    ∀ i (p : BlePeripheral), ps[i]? = some p → nameMatches p = true →
    (∀ (j : Nat) (q : BlePeripheral), j < i → ps[j]? = some q → nameMatches q = false) →
    print_devices ps = some p := by
  induction ps with
  | nil =>
      intro i p hp
      simp at hp
  | cons a rest ih =>
      intro i p hp hm hb
      cases i with
      | zero =>
          simp at hp
          subst hp
          simp [print_devices, hm]
      | succ i =>
          have ha : nameMatches a = false := hb 0 a (Nat.succ_pos i) (by simp)
          simp only [List.getElem?_cons_succ] at hp
          simp only [print_devices, ha, Bool.false_eq_true, if_false]
          exact ih i p hp hm fun j q hj hq => hb (j + 1) q (by omega) (by simpa using hq)

/-! ## Claim C9 — discovery filter and fatal startup -/

/-- Claim C9: discovery selects the first visible peripheral whose advertised
name contains the substring "Light", after the fixed 2-second scan window;
when no peripheral's name contains it, startup fails fatally (the `expect`
panic aborts the process before the control loop, with no retry). -/
theorem C9_discovery (ps : List BlePeripheral) (i : Nat) (p : BlePeripheral)
    (hp : ps[i]? = some p) (hm : nameMatches p = true)
    (hb : ∀ (j : Nat) (q : BlePeripheral), j < i → ps[j]? = some q → nameMatches q = false) :
    SCAN_WINDOW_SECONDS = 2 ∧
    get_light ps = Except.ok p ∧
    (∀ qs : List BlePeripheral, (∀ q ∈ qs, nameMatches q = false) →
      get_light qs = Except.error "No Actuel lights found") := by
  refine ⟨rfl, ?_, ?_⟩
  · have hfirst := print_devices_first ps i p hp hm hb
    simp [get_light, hfirst]
  · intro qs hqs
    have hnone := print_devices_none qs hqs
    simp [get_light, hnone]

/-- A sample peripheral list for the witness: the first match ("Fairy
Lights") is preceded by a non-matching name and followed by a nameless
peripheral. -/
def samplePeripherals : List BlePeripheral :=
  [{ local_name := some "Santa" }, { local_name := some "Fairy Lights" },
    { local_name := none }]

/-- Witness for C9 on `samplePeripherals`, first match at index 1. -/
theorem C9_discovery_witness :
    (samplePeripherals[1]? = some { local_name := some "Fairy Lights" } ∧
      nameMatches { local_name := some "Fairy Lights" } = true) ∧
    (SCAN_WINDOW_SECONDS = 2 ∧
    get_light samplePeripherals = Except.ok { local_name := some "Fairy Lights" } ∧
    (∀ qs : List BlePeripheral, (∀ q ∈ qs, nameMatches q = false) →
      get_light qs = Except.error "No Actuel lights found")) :=
  ⟨⟨by decide, by decide⟩,
    C9_discovery samplePeripherals 1 { local_name := some "Fairy Lights" }
      (by decide) (by decide)
      (fun j q hj hq => by
        have hj0 : j = 0 := by omega
        subst hj0
        have hq0 : samplePeripherals[0]? = some { local_name := some "Santa" } := by
          decide
        rw [hq0] at hq
        injection hq with h
        subst h
        decide)⟩
